import Mathlib

/-!
Shallow embedding of the steam-table calculator views
(`steam_calc/views.py`, `steam_calc/models.py`) over an abstract IAPWS-97
property engine.  Numeric values are modelled as rationals; the property
engine is a parameter mapping a two-input query to either a thermodynamic
state or an exception kind.  Each handler additionally returns the ordered
list of queries it issued to the engine, so that fail-fast and evaluation
order properties can be stated.  Rational division is total (`q / 0 = 0`).
-/

attribute [local semireducible] Rat.mul Rat.inv Rat.add Rat.sub Rat.ofScientific

/-- Round a rational to `n` decimal places (models Python `round(v, n)`;
the tie-breaking rule is immaterial to the properties proved here). -/
def roundTo (q : ℚ) (n : ℕ) : ℚ := ((q * 10 ^ n + 1 / 2).floor : ℚ) / 10 ^ n

/-- The fields of an engine-computed thermodynamic state that the views
read: `h`, `s`, `v`, `T`, `P`, `x`, `phase`.  `x = none` models a state
object that lacks the `x` attribute (so `hasattr(state, 'x')` is false
and a direct `.x` access raises `AttributeError`). -/
structure EngineState where
  h : ℚ
  s : ℚ
  v : ℚ
  T : ℚ
  P : ℚ
  x : Option ℚ
  phase : String
deriving Repr, DecidableEq

/-- One two-input property query, mirroring the keyword-argument pairs the
views pass to `IAPWS97`. -/
inductive Query where
  | PT (p t : ℚ)
  | Tx (t x : ℚ)
  | Px (p x : ℚ)
  | Ps (p s : ℚ)
  | Ph (p h : ℚ)
deriving Repr, DecidableEq

/-- Exception kinds an engine call can raise, as the views discriminate
them in their `except` clauses. -/
inductive EngineExc where
  /-- `NotImplementedError` whose text contains "out of bound". -/
  | outOfBound
  /-- Any other `NotImplementedError`. -/
  | notImpl
  /-- A `ValueError` raised by the engine. -/
  | valueErr
  /-- Any other exception. -/
  | otherExc
deriving Repr, DecidableEq

/-- The external property engine: a function from a two-input query to a
state or an exception. -/
abbrev Engine := Query → Except EngineExc EngineState

/-- A plotted point `{'x': ..., 'y': ...}`. -/
structure Pt where
  x : ℚ
  y : ℚ
deriving Repr, DecidableEq

/-- The approximate critical point appended to both dome branches. -/
def criticalPoint : Pt := ⟨4.406, 373.946⟩

/-- `range(0, 374, 10)`: the sweep temperatures 0, 10, ..., 370 °C. -/
def sweepTemps : List ℚ := (List.range 38).map fun i => 10 * (i : ℚ)

/-- One sweep step of the dome generator: query the saturated liquid
(`x = 0`) and saturated vapor (`x = 1`) states at `tC` °C; if either
engine call fails, the `try` block aborts before any append, so the step
yields nothing. -/
def domePoint (engine : Engine) (tC : ℚ) : Option (Pt × Pt) :=
  match engine (.Tx (tC + 273.15) 0) with
  | .error _ => none
  | .ok sat_liquid =>
    match engine (.Tx (tC + 273.15) 1) with
    | .error _ => none
    | .ok sat_vapor => some (⟨sat_liquid.s, tC⟩, ⟨sat_vapor.s, tC⟩)

/-- `generate_saturation_dome`: sweep the temperatures, appending each
successful sample to both branch lists, then append the critical point to
both. -/
def generate_saturation_dome (engine : Engine) : List Pt × List Pt :=
  let swept := sweepTemps.foldl
    (fun acc tC =>
      match domePoint engine tC with
      | some pq => (acc.1 ++ [pq.1], acc.2 ++ [pq.2])
      | none => acc)
    ([], [])
  (swept.1 ++ [criticalPoint], swept.2 ++ [criticalPoint])

/-! ## Single state-point evaluation (`handle_state_point`) -/

/-- The form fields of a state-point request (numeric fields already
parsed; parse failures are not needed by any claim). -/
structure SPInput where
  pressure : ℚ
  temperature : ℚ
  p_unit : String
  t_unit : String
deriving Repr, DecidableEq

/-- The quality value placed in the context by the state-point handler:
the strings `'0'` and `'1'`, or the rounded numeric `steam.x`. -/
inductive XRep where
  | strZero
  | strOne
  | num (q : ℚ)
deriving Repr, DecidableEq

/-- One intermediate two-phase sample `{'x', 'h', 's', 'v'}`. -/
structure IntermediatePt where
  x : ℚ
  h : ℚ
  s : ℚ
  v : ℚ
deriving Repr, DecidableEq

/-- The success context of a state-point computation.  `state`, `x` and
`intermediate_data` are `none` when the corresponding key is never set
(a phase string matching no branch). -/
structure StateCtx where
  p : ℚ
  t : ℚ
  p_unit : String
  t_unit : String
  h : ℚ
  s : ℚ
  v : ℚ
  point_s : ℚ
  point_t : ℚ
  state : Option String
  x : Option XRep
  intermediate_data : Option (List IntermediatePt)
deriving Repr, DecidableEq

/-- User-facing error kinds of the state-point handler, one per `except`
clause. -/
inductive SPError where
  /-- "… exceed the valid limits of the IAPWS-97 steam tables …" -/
  | rangeViolation
  /-- "Thermodynamic error: …" -/
  | thermoError
  /-- "Input Error: …" -/
  | inputError
  /-- "An unexpected calculation error occurred. …" -/
  | unexpected
deriving Repr, DecidableEq

/-- Map an engine exception through the state-point `except` clauses. -/
def spEngineError : EngineExc → SPError
  | .outOfBound => .rangeViolation
  | .notImpl => .thermoError
  | .valueErr => .inputError
  | .otherExc => .unexpected

/-- Result of one state-point attempt. -/
inductive SPResult where
  | success (ctx : StateCtx)
  | error (e : SPError)
deriving Repr, DecidableEq

/-- The pressure-conversion `if/elif` chain: `none` models the conversion
variable `p_mpa` being left unset for an unrecognized unit tag. -/
def convPressure (p_unit : String) (p_val : ℚ) : Option ℚ :=
  if p_unit = "bar" then some (p_val / 10)
  else if p_unit = "pa" then some (p_val / 1000000)
  else if p_unit = "atm" then some (p_val * 0.101325)
  else none

/-- The temperature conversion: `'c'` adds 273.15; any other tag is
passed through as Kelvin. -/
def convTemp (t_unit : String) (t_val : ℚ) : ℚ :=
  if t_unit = "c" then t_val + 273.15 else t_val

/-- One intermediate-sample dict built from an engine state. -/
def mkIntermediate (ix : ℚ) (st : EngineState) : IntermediatePt :=
  ⟨ix, roundTo st.h 2, roundTo st.s 4, roundTo st.v 5⟩

/-- The intermediate-quality loop: sample each quality in order at the
same pressure, stopping at the first engine failure. -/
def sampleIntermediates (engine : Engine) (p_mpa : ℚ) :
    List ℚ → Except EngineExc (List IntermediatePt) × List Query
  | [] => (.ok [], [])
  | ix :: rest =>
    match engine (.Px p_mpa ix) with
    | .error e => (.error e, [.Px p_mpa ix])
    | .ok int_steam =>
      match sampleIntermediates engine p_mpa rest with
      | (.ok pts, qs) => (.ok (mkIntermediate ix int_steam :: pts), .Px p_mpa ix :: qs)
      | (.error e, qs) => (.error e, .Px p_mpa ix :: qs)

/-- The context fields set by `context.update({...})` before the phase
branches. -/
def spBase (inp : SPInput) (t_k : ℚ) (steam : EngineState) : StateCtx where
  p := inp.pressure
  t := inp.temperature
  p_unit := inp.p_unit
  t_unit := inp.t_unit
  h := roundTo steam.h 2
  s := roundTo steam.s 4
  v := roundTo steam.v 5
  point_s := steam.s
  point_t := t_k - 273.15
  state := none
  x := none
  intermediate_data := none

/-- `handle_state_point`, returning the result together with the ordered
engine-query trace.  An unset `p_mpa` surfaces as a `NameError` at the
engine-call site, caught by the bare `except Exception` clause. -/
def handle_state_point (engine : Engine) (inp : SPInput) :
    SPResult × List Query :=
  let t_k := convTemp inp.t_unit inp.temperature
  match convPressure inp.p_unit inp.pressure with
  | none => (.error .unexpected, [])
  | some p_mpa =>
    match engine (.PT p_mpa t_k) with
    | .error e => (.error (spEngineError e), [.PT p_mpa t_k])
    | .ok steam =>
      if steam.phase = "Liquid" then
        (.success { spBase inp t_k steam with
                      state := some "Compressed Liquid", x := some .strZero },
         [.PT p_mpa t_k])
      else if steam.phase = "Gas" then
        (.success { spBase inp t_k steam with
                      state := some "Superheated Steam", x := some .strOne },
         [.PT p_mpa t_k])
      else if steam.phase = "Two-phase" then
        match steam.x with
        | none => (.error .unexpected, [.PT p_mpa t_k])
        | some xv =>
          match sampleIntermediates engine p_mpa [0.2, 0.4, 0.6, 0.8] with
          | (.ok pts, qs) =>
            (.success { spBase inp t_k steam with
                          state := some "Wet Steam",
                          x := some (.num (roundTo xv 4)),
                          intermediate_data := some pts },
             .PT p_mpa t_k :: qs)
          | (.error e, qs) => (.error (spEngineError e), .PT p_mpa t_k :: qs)
      else
        (.success (spBase inp t_k steam), [.PT p_mpa t_k])

/-! ## Rankine cycle evaluation (`handle_rankine_cycle`) -/

/-- The form fields of a Rankine request (defaults already applied by the
caller; pressures in bar, temperature in °C, efficiencies in percent). -/
structure RankineInput where
  p_cond : ℚ
  p_boiler : ℚ
  t_boiler : ℚ
  pump_eff_pct : ℚ
  turbine_eff_pct : ℚ
deriving Repr, DecidableEq

/-- The quality entry of a per-state result dict: the literal strings
`'0 (sat. liquid)'`, `'1 (sat. vapor)'`, `'N/A'`, or a rounded number. -/
inductive XDisplay where
  | satLiquidStr
  | satVaporStr
  | na
  | num (q : ℚ)
deriving Repr, DecidableEq

/-- One per-state result dict `{'p','T','h','s','x','phase'}`. -/
structure RankineStateCtx where
  p : ℚ
  T : ℚ
  h : ℚ
  s : ℚ
  x : XDisplay
  phase : String
deriving Repr, DecidableEq

/-- One labelled cycle point for the T-s chart. -/
structure CyclePt where
  x : ℚ
  y : ℚ
  label : String
deriving Repr, DecidableEq

/-- The success context of a Rankine-cycle computation. -/
structure RankineCtx where
  cycle_points : List CyclePt
  p_low : ℚ
  p_high : ℚ
  t_high : ℚ
  pump_eff : ℚ
  turbine_eff : ℚ
  state1 : RankineStateCtx
  state2 : RankineStateCtx
  state3 : RankineStateCtx
  state4 : RankineStateCtx
  w_pump : ℚ
  q_in : ℚ
  w_turbine : ℚ
  w_net : ℚ
  efficiency : ℚ
  carnot_eff : ℚ
deriving Repr, DecidableEq

/-- User-facing error kinds of the Rankine handler, one per distinct
message its `except` clauses can produce. -/
inductive RankineError where
  /-- "… exceed the valid limits of the IAPWS-97 formulations …" -/
  | rangeViolation
  /-- "Thermodynamic error: …" -/
  | thermoError
  /-- "Physics Violation: Boiler pressure must be strictly greater than
  Condenser pressure." -/
  | physicsViolation
  /-- "Efficiencies must be between 1% and 100%." -/
  | invalidEfficiency
  /-- A `ValueError` raised by the engine, surfaced verbatim. -/
  | engineValueError
  /-- "An unexpected error occurred. …" -/
  | unexpected
deriving Repr, DecidableEq

/-- Map an engine exception through the Rankine `except` clauses. -/
def rankineEngineError : EngineExc → RankineError
  | .outOfBound => .rangeViolation
  | .notImpl => .thermoError
  | .valueErr => .engineValueError
  | .otherExc => .unexpected

/-- Result of one Rankine-cycle attempt. -/
inductive RankineResult where
  | success (ctx : RankineCtx)
  | error (e : RankineError)
deriving Repr, DecidableEq

/-- `efficiency = (w_net / q_in * 100) if q_in > 0 else 0`. -/
def cycleEfficiency (w_net q_in : ℚ) : ℚ :=
  if q_in > 0 then w_net / q_in * 100 else 0

/-- The quality display of State 3:
`'1 (sat. vapor)' if state3.phase == 'Gas' else round(state3.x, 4)`.
The direct `.x` access raises `AttributeError` (→ `none`) when the
attribute is absent. -/
def xDisp3 (s : EngineState) : Option XDisplay :=
  if s.phase = "Gas" then some .satVaporStr
  else s.x.map fun v => .num (roundTo v 4)

/-- The quality display of States 2 and 4:
`round(state.x, 4) if hasattr(state, 'x') else 'N/A'`. -/
def xAttrDisp (s : EngineState) : XDisplay :=
  match s.x with
  | some v => .num (roundTo v 4)
  | none => .na

/-- One per-state result dict from an engine state and a quality display. -/
def mkStateCtx (s : EngineState) (x : XDisplay) (phase : String) :
    RankineStateCtx where
  p := roundTo (s.P * 10) 3
  T := roundTo (s.T - 273.15) 2
  h := roundTo s.h 2
  s := roundTo s.s 4
  x := x
  phase := phase

/-- The success context assembled by `context.update({...})` from the six
resolved states (`d3` is the already-resolved State-3 quality display). -/
def mkRankineCtx (inp : RankineInput)
    (state1 state2s state2 state3 state4s state4 : EngineState)
    (d3 : XDisplay) : RankineCtx :=
  let pump_eff := inp.pump_eff_pct / 100
  let turbine_eff := inp.turbine_eff_pct / 100
  let w_pump := state2.h - state1.h
  let q_in := state3.h - state2.h
  let w_turbine := state3.h - state4.h
  let w_net := w_turbine - w_pump
  let t_high_abs := inp.t_boiler + 273.15
  let t_low_abs := state1.T
  { cycle_points :=
      [⟨state1.s, state1.T - 273.15, "State 1"⟩,
       ⟨state2.s, state2.T - 273.15, "State 2"⟩,
       ⟨state3.s, state3.T - 273.15, "State 3"⟩,
       ⟨state4.s, state4.T - 273.15, "State 4"⟩,
       ⟨state1.s, state1.T - 273.15, "State 1"⟩],
    p_low := inp.p_cond,
    p_high := inp.p_boiler,
    t_high := inp.t_boiler,
    pump_eff := pump_eff * 100,
    turbine_eff := turbine_eff * 100,
    state1 := mkStateCtx state1 .satLiquidStr "Saturated Liquid",
    state2 := mkStateCtx state2 (xAttrDisp state2) state2.phase,
    state3 := mkStateCtx state3 d3 "Superheated Steam",
    state4 := mkStateCtx state4 (xAttrDisp state4) state4.phase,
    w_pump := roundTo w_pump 2,
    q_in := roundTo q_in 2,
    w_turbine := roundTo w_turbine 2,
    w_net := roundTo w_net 2,
    efficiency := roundTo (cycleEfficiency w_net q_in) 2,
    carnot_eff := roundTo ((1 - t_low_abs / t_high_abs) * 100) 2 }

/-- `handle_rankine_cycle`, returning the result together with the
ordered engine-query trace.  The two precondition `raise ValueError`
statements run before any engine call and are caught by the handler's own
`except ValueError` clause; an `AttributeError` from the State-3 quality
access is caught by the bare `except Exception` clause. -/
def handle_rankine_cycle (engine : Engine) (inp : RankineInput) :
    RankineResult × List Query :=
  let p_low := inp.p_cond
  let p_high := inp.p_boiler
  let t_high := inp.t_boiler
  let pump_eff := inp.pump_eff_pct / 100
  let turbine_eff := inp.turbine_eff_pct / 100
  if p_low ≥ p_high then (.error .physicsViolation, [])
  else if pump_eff ≤ 0 ∨ turbine_eff ≤ 0 ∨ pump_eff > 1 ∨ turbine_eff > 1 then
    (.error .invalidEfficiency, [])
  else
    let p_low_mpa := p_low / 10
    let p_high_mpa := p_high / 10
    let t_high_k := t_high + 273.15
    let q1 := Query.Px p_low_mpa 0
    match engine q1 with
    | .error e => (.error (rankineEngineError e), [q1])
    | .ok state1 =>
      let q2s := Query.Ps p_high_mpa state1.s
      match engine q2s with
      | .error e => (.error (rankineEngineError e), [q1, q2s])
      | .ok state2s =>
        let h2_actual := state1.h + (state2s.h - state1.h) / pump_eff
        let q2 := Query.Ph p_high_mpa h2_actual
        match engine q2 with
        | .error e => (.error (rankineEngineError e), [q1, q2s, q2])
        | .ok state2 =>
          let q3 := Query.PT p_high_mpa t_high_k
          match engine q3 with
          | .error e => (.error (rankineEngineError e), [q1, q2s, q2, q3])
          | .ok state3 =>
            let q4s := Query.Ps p_low_mpa state3.s
            match engine q4s with
            | .error e => (.error (rankineEngineError e), [q1, q2s, q2, q3, q4s])
            | .ok state4s =>
              let h4_actual := state3.h - (state3.h - state4s.h) * turbine_eff
              let q4 := Query.Ph p_low_mpa h4_actual
              match engine q4 with
              | .error e =>
                (.error (rankineEngineError e), [q1, q2s, q2, q3, q4s, q4])
              | .ok state4 =>
                match xDisp3 state3 with
                | none => (.error .unexpected, [q1, q2s, q2, q3, q4s, q4])
                | some d3 =>
                  (.success
                     (mkRankineCtx inp state1 state2s state2 state3 state4s
                        state4 d3),
                   [q1, q2s, q2, q3, q4s, q4])

/-! ## View entry point and the audit log (`steam_calculator`,
`SteamQueryLog`) -/

/-- One `SteamQueryLog` row (`models.py`). -/
structure LogRecord where
  pressure : ℚ
  temperature : ℚ
  timestamp : ℕ
  is_valid : Bool
deriving Repr, DecidableEq

/-- An incoming request: the HTTP method, the `mode` field (defaulted to
`'state_point'` by `POST.get`), and the two input groups. -/
structure Request where
  method : String
  mode : String
  sp : SPInput
  rk : RankineInput
deriving Repr, DecidableEq

/-- The template context assembled by `steam_calculator` (dome data,
active mode, and the per-mode result when the request was a POST). -/
structure ViewContext where
  liquid_line : List Pt
  vapor_line : List Pt
  active_mode : Option String
  state_result : Option SPResult
  rankine_result : Option RankineResult
deriving Repr, DecidableEq

/-- `steam_calculator`: the full view, threaded through the query-log
table (a list of `SteamQueryLog` rows).  The view never creates, updates
or deletes a log row, so the table passes through unchanged. -/
def steam_calculator (engine : Engine) (req : Request)
    (log : List LogRecord) : ViewContext × List LogRecord :=
  let dome := generate_saturation_dome engine
  if req.method = "POST" then
    if req.mode = "rankine_cycle" then
      ({ liquid_line := dome.1, vapor_line := dome.2,
         active_mode := some "rankine",
         state_result := none,
         rankine_result := some (handle_rankine_cycle engine req.rk).1 },
       log)
    else
      ({ liquid_line := dome.1, vapor_line := dome.2,
         active_mode := some "state",
         state_result := some (handle_state_point engine req.sp).1,
         rankine_result := none },
       log)
  else
    ({ liquid_line := dome.1, vapor_line := dome.2,
       active_mode := none, state_result := none, rankine_result := none },
     log)

/-! ## Helper lemmas -/

/-- The dome sweep fold, characterized branch-by-branch: each successful
step contributes its liquid point to the first list and its vapor point
to the second, in sweep order; failed steps contribute to neither. -/
theorem dome_foldl_append (engine : Engine) (l : List ℚ)
    (acc : List Pt × List Pt) :
    l.foldl
      (fun acc tC =>
        match domePoint engine tC with
        | some pq => (acc.1 ++ [pq.1], acc.2 ++ [pq.2])
        | none => acc)
      acc =
    (acc.1 ++ l.filterMap (fun tC => (domePoint engine tC).map Prod.fst),
     acc.2 ++ l.filterMap (fun tC => (domePoint engine tC).map Prod.snd)) := by
  induction l generalizing acc with
  | nil => simp
  | cons t ts ih =>
    simp only [List.foldl_cons, List.filterMap_cons]
    cases h : domePoint engine t with
    | none => simp only [h, Option.map_none', ih]
    | some pq => simp only [h, Option.map_some', ih, List.append_assoc,
        List.singleton_append]

/-- `generate_saturation_dome` in closed form. -/
theorem dome_eq (engine : Engine) :
    generate_saturation_dome engine =
      (sweepTemps.filterMap (fun tC => (domePoint engine tC).map Prod.fst)
         ++ [criticalPoint],
       sweepTemps.filterMap (fun tC => (domePoint engine tC).map Prod.snd)
         ++ [criticalPoint]) := by
  unfold generate_saturation_dome
  rw [dome_foldl_append]
  simp

/-- Forward evaluation of a successful Rankine-cycle run: with both
preconditions satisfied and the engine answering the six queries in
order, the handler succeeds with the assembled context and the six-query
trace. -/
theorem rankine_success_eq (engine : Engine) (inp : RankineInput)
    (s1 s2s s2 s3 s4s s4 : EngineState) (d3 : XDisplay)
    (hp : ¬ inp.p_cond ≥ inp.p_boiler)
    (he : ¬ (inp.pump_eff_pct / 100 ≤ 0 ∨ inp.turbine_eff_pct / 100 ≤ 0 ∨
             inp.pump_eff_pct / 100 > 1 ∨ inp.turbine_eff_pct / 100 > 1))
    (e1 : engine (.Px (inp.p_cond / 10) 0) = .ok s1)
    (e2 : engine (.Ps (inp.p_boiler / 10) s1.s) = .ok s2s)
    (e3 : engine (.Ph (inp.p_boiler / 10)
            (s1.h + (s2s.h - s1.h) / (inp.pump_eff_pct / 100))) = .ok s2)
    (e4 : engine (.PT (inp.p_boiler / 10) (inp.t_boiler + 273.15)) = .ok s3)
    (e5 : engine (.Ps (inp.p_cond / 10) s3.s) = .ok s4s)
    (e6 : engine (.Ph (inp.p_cond / 10)
            (s3.h - (s3.h - s4s.h) * (inp.turbine_eff_pct / 100))) = .ok s4)
    (hx : xDisp3 s3 = some d3) :
    handle_rankine_cycle engine inp =
      (.success (mkRankineCtx inp s1 s2s s2 s3 s4s s4 d3),
       [.Px (inp.p_cond / 10) 0,
        .Ps (inp.p_boiler / 10) s1.s,
        .Ph (inp.p_boiler / 10)
          (s1.h + (s2s.h - s1.h) / (inp.pump_eff_pct / 100)),
        .PT (inp.p_boiler / 10) (inp.t_boiler + 273.15),
        .Ps (inp.p_cond / 10) s3.s,
        .Ph (inp.p_cond / 10)
          (s3.h - (s3.h - s4s.h) * (inp.turbine_eff_pct / 100))]) := by
  simp only [handle_rankine_cycle, hp, he, if_false, e1, e2, e3, e4, e5, e6, hx]

/-- Inversion of a successful Rankine-cycle run: every success context
was assembled by `mkRankineCtx` from engine-resolved states, with State 3
resolved from the boiler pressure and temperature and its quality display
resolved by `xDisp3`. -/
theorem rankine_success_inv (engine : Engine) (inp : RankineInput)
    (ctx : RankineCtx) (tr : List Query)
    (h : handle_rankine_cycle engine inp = (.success ctx, tr)) :
    ∃ s1 s2s s2 s3 s4s s4 d3,
      engine (.PT (inp.p_boiler / 10) (inp.t_boiler + 273.15)) = .ok s3 ∧
      xDisp3 s3 = some d3 ∧
      ctx = mkRankineCtx inp s1 s2s s2 s3 s4s s4 d3 := by
  simp only [handle_rankine_cycle] at h
  split at h
  · simp at h
  split at h
  · simp at h
  split at h <;> rename_i heq1
  · simp at h
  split at h <;> rename_i heq2
  · simp at h
  split at h <;> rename_i heq3
  · simp at h
  split at h <;> rename_i heq4
  · simp at h
  split at h <;> rename_i heq5
  · simp at h
  split at h <;> rename_i heq6
  · simp at h
  split at h <;> rename_i heq7
  · simp at h
  rw [Prod.mk.injEq] at h
  obtain ⟨h1, h2⟩ := h
  injection h1 with h1
  exact ⟨_, _, _, _, _, _, _, heq4, heq7, h1.symm⟩

/-! ## Concrete states, engines and inputs used for instantiation -/

/-- A compressed-liquid state carrying the quality attribute `x = 0`, as
the real IAPWS97 library reports for single-phase liquid states. -/
def liquidW : EngineState := ⟨100, 2, 1/1000, 300, 1, some 0, "Liquid"⟩

/-- A superheated-vapor state carrying `x = 1`. -/
def gasW : EngineState := ⟨2800, 6, 1/5, 500, 1, some 1, "Gas"⟩

/-- A two-phase state with quality `x = 1/2`. -/
def wetW : EngineState := ⟨1500, 4, 1/10, 400, 1, some (1/2), "Two-phase"⟩

/-- A single-phase state without the quality attribute. -/
def noXW : EngineState := ⟨100, 2, 1/1000, 300, 1, none, "Liquid"⟩

/-- An engine resolving every query to `liquidW`. -/
def engLiquid : Engine := fun _ => .ok liquidW

/-- An engine resolving every query to `gasW`. -/
def engGas : Engine := fun _ => .ok gasW

/-- An engine resolving every query to `wetW`. -/
def engWet : Engine := fun _ => .ok wetW

/-- The spec's example Rankine input: 0.05 bar condenser, 10 bar boiler,
450 °C, 85 % / 85 %. -/
def rkInpW : RankineInput := ⟨0.05, 10, 450, 85, 85⟩

/-- The context a successful all-`wetW` Rankine run assembles. -/
def rkCtxWet : RankineCtx :=
  mkRankineCtx rkInpW wetW wetW wetW wetW wetW wetW (.num (1/2))

/-- The query trace of that run. -/
def rkTrWet : List Query :=
  [.Px (1/200) 0, .Ps 1 4, .Ph 1 1500, .PT 1 723.15, .Ps (1/200) 4,
   .Ph (1/200) 1500]

/-- Whether a state-point attempt succeeded. -/
def SPResult.succeeded : SPResult → Bool
  | .success _ => true
  | .error _ => false

/-! ## Claims -/

/-- C1, counterexample: a state-point computation attempt (a POST in
state mode, which runs to a successful result) appends no record to the
query log: the log is empty afterwards, not one record long.  The view
layer never writes `SteamQueryLog`. -/
theorem C1_counterexample :
    (steam_calculator engWet
        ⟨"POST", "state_point", ⟨1, 100, "bar", "c"⟩, rkInpW⟩ []).1.active_mode
      = some "state" ∧
    ((steam_calculator engWet
        ⟨"POST", "state_point", ⟨1, 100, "bar", "c"⟩, rkInpW⟩ []).1.state_result.map
          SPResult.succeeded) = some true ∧
    (steam_calculator engWet
        ⟨"POST", "state_point", ⟨1, 100, "bar", "c"⟩, rkInpW⟩ []).2.length = 0 := by
  decide

/-- C1, amended: the computation subsystem never writes the audit log at
all — no computation attempt creates a record, and existing records are
never mutated or deleted: the log table passes through every request
unchanged. -/
theorem C1_amended_log_unchanged (engine : Engine) (req : Request)
    (log : List LogRecord) : (steam_calculator engine req log).2 = log := by
  unfold steam_calculator
  dsimp only
  split
  · split <;> rfl
  · rfl

/-- C2: both Rankine precondition checks reject before any engine call
(the returned query trace is empty).  Condenser pressure ≥ boiler
pressure rejects with the PhysicsViolation error; otherwise (fail-fast
order) an efficiency outside (0, 1] rejects with the InvalidEfficiency
error. -/
theorem C2_preconditions_fail_fast (engine : Engine) (inp : RankineInput) :
    (inp.p_cond ≥ inp.p_boiler →
      handle_rankine_cycle engine inp = (.error .physicsViolation, [])) ∧
    (inp.p_cond < inp.p_boiler →
      (inp.pump_eff_pct / 100 ≤ 0 ∨ inp.turbine_eff_pct / 100 ≤ 0 ∨
       inp.pump_eff_pct / 100 > 1 ∨ inp.turbine_eff_pct / 100 > 1) →
      handle_rankine_cycle engine inp = (.error .invalidEfficiency, [])) := by
  constructor
  · intro h
    simp only [handle_rankine_cycle, h, if_true]
  · intro h1 h2
    have h1' : ¬ inp.p_cond ≥ inp.p_boiler := not_le.mpr h1
    simp only [handle_rankine_cycle, h1', if_false, h2, if_true]

/-- C2, witness: condenser 10 bar ≥ boiler 5 bar is rejected as a
physics violation with no engine call; pump efficiency 0 is rejected as
an invalid efficiency with no engine call. -/
theorem C2_witness :
    handle_rankine_cycle engWet ⟨10, 5, 450, 85, 85⟩ =
      (.error .physicsViolation, []) ∧
    handle_rankine_cycle engWet ⟨0.05, 10, 450, 0, 85⟩ =
      (.error .invalidEfficiency, []) :=
  ⟨(C2_preconditions_fail_fast engWet ⟨10, 5, 450, 85, 85⟩).1 (by decide),
   (C2_preconditions_fail_fast engWet ⟨0.05, 10, 450, 0, 85⟩).2 (by decide)
     (Or.inl (by decide))⟩

/-- C3, counterexample: the unrecognized temperature tag "f" does not
leave the conversion variable unset and does not make the attempt fail:
the attempt succeeds, with the raw value 100 passed straight through as
Kelvin to the engine. -/
theorem C3_counterexample :
    (handle_state_point engWet ⟨1, 100, "bar", "f"⟩).1.succeeded = true ∧
    (handle_state_point engWet ⟨1, 100, "bar", "f"⟩).2 =
      [.PT (1/10) 100, .Px (1/10) 0.2, .Px (1/10) 0.4, .Px (1/10) 0.6,
       .Px (1/10) 0.8] := by
  decide

/-- C3, amended: only unrecognized pressure tags leave the conversion
variable unset, making the attempt fail (generic error, no engine call);
temperature tags other than "c" — recognized "k" or not — are silently
passed through as Kelvin. -/
theorem C3_amended_unit_handling (engine : Engine) (inp : SPInput) :
    (inp.p_unit ≠ "bar" → inp.p_unit ≠ "pa" → inp.p_unit ≠ "atm" →
      handle_state_point engine inp = (.error .unexpected, [])) ∧
    (inp.t_unit ≠ "c" →
      convTemp inp.t_unit inp.temperature = inp.temperature) := by
  constructor
  · intro h1 h2 h3
    simp only [handle_state_point, convPressure, h1, h2, h3, if_false]
  · intro h
    simp only [convTemp, h, if_false]

/-- C3, witness: the unrecognized pressure tag "xyz" fails the attempt
with no engine call; the unrecognized temperature tag "f" passes 100
through unchanged. -/
theorem C3_witness :
    handle_state_point engWet ⟨1, 100, "xyz", "f"⟩ = (.error .unexpected, []) ∧
    convTemp "f" 100 = 100 :=
  ⟨(C3_amended_unit_handling engWet ⟨1, 100, "xyz", "f"⟩).1 (by decide)
     (by decide) (by decide),
   (C3_amended_unit_handling engWet ⟨1, 100, "xyz", "f"⟩).2 (by decide)⟩

/-- C4, counterexample: with an engine that reports every resolved state
as single-phase liquid carrying the quality attribute `x = 0` (as the
real IAPWS97 library does for compressed liquid), the cycle succeeds and
States 2 and 4 are reported with the numeric quality 0 — not "N/A" —
although their resolved phase is single-phase. -/
theorem C4_counterexample :
    (handle_rankine_cycle engLiquid rkInpW).1 =
      .success (mkRankineCtx rkInpW liquidW liquidW liquidW liquidW liquidW
        liquidW (.num 0)) ∧
    (mkRankineCtx rkInpW liquidW liquidW liquidW liquidW liquidW liquidW
        (.num 0)).state2.phase = "Liquid" ∧
    (mkRankineCtx rkInpW liquidW liquidW liquidW liquidW liquidW liquidW
        (.num 0)).state2.x = .num 0 ∧
    (mkRankineCtx rkInpW liquidW liquidW liquidW liquidW liquidW liquidW
        (.num 0)).state4.phase = "Liquid" ∧
    (mkRankineCtx rkInpW liquidW liquidW liquidW liquidW liquidW liquidW
        (.num 0)).state4.x = .num 0 := by
  decide

/-- C4, amended: in every successful Rankine result the quality of
States 2 and 4 is determined solely by presence of the engine state's
quality attribute — numeric (rounded `x`) exactly when the attribute
exists, "N/A" exactly when it does not — irrespective of the resolved
phase. -/
theorem C4_amended_quality_by_attribute (engine : Engine)
    (inp : RankineInput) (ctx : RankineCtx) (tr : List Query)
    (h : handle_rankine_cycle engine inp = (.success ctx, tr)) :
    (∃ s1 s2s s2 s3 s4s s4 d3,
      ctx = mkRankineCtx inp s1 s2s s2 s3 s4s s4 d3 ∧
      ctx.state2.x = xAttrDisp s2 ∧ ctx.state2.phase = s2.phase ∧
      ctx.state4.x = xAttrDisp s4 ∧ ctx.state4.phase = s4.phase) ∧
    (∀ (s : EngineState) (v : ℚ), s.x = some v →
      xAttrDisp s = .num (roundTo v 4)) ∧
    (∀ s : EngineState, s.x = none → xAttrDisp s = .na) := by
  refine ⟨?_, ?_, ?_⟩
  · obtain ⟨s1, s2s, s2, s3, s4s, s4, d3, _, _, hctx⟩ :=
      rankine_success_inv engine inp ctx tr h
    exact ⟨s1, s2s, s2, s3, s4s, s4, d3, hctx, by rw [hctx]; rfl,
      by rw [hctx]; rfl, by rw [hctx]; rfl, by rw [hctx]; rfl⟩
  · intro s v hs
    simp only [xAttrDisp, hs]
  · intro s hs
    simp only [xAttrDisp, hs]

/-- C4, witness: the quality-display function applied to a state with
`x = 1/2` yields the rounded numeric quality, and applied to a state
without the attribute yields "N/A"; the hypothesis is discharged by the
concrete successful all-`wetW` run. -/
theorem C4_witness :
    xAttrDisp wetW = .num (roundTo (1/2) 4) ∧ xAttrDisp noXW = .na :=
  ⟨(C4_amended_quality_by_attribute engWet rkInpW rkCtxWet rkTrWet
      (by decide)).2.1 wetW (1/2) rfl,
   (C4_amended_quality_by_attribute engWet rkInpW rkCtxWet rkTrWet
      (by decide)).2.2 noXW rfl⟩

/-- C5: the reported thermal efficiency is `0` whenever heat input
`q_in = h3 − h2` is ≤ 0 (never a division by zero), and equals net work
divided by heat input (as a percentage) whenever `q_in > 0`; the
assembled context reports exactly this quantity, rounded for display. -/
theorem C5_efficiency_guard :
    (∀ w_net q_in : ℚ, q_in ≤ 0 → cycleEfficiency w_net q_in = 0) ∧
    (∀ w_net q_in : ℚ, 0 < q_in →
      cycleEfficiency w_net q_in = w_net / q_in * 100) ∧
    (∀ (inp : RankineInput) (s1 s2s s2 s3 s4s s4 : EngineState)
        (d3 : XDisplay),
      (mkRankineCtx inp s1 s2s s2 s3 s4s s4 d3).efficiency =
        roundTo
          (cycleEfficiency ((s3.h - s4.h) - (s2.h - s1.h)) (s3.h - s2.h))
          2) := by
  refine ⟨?_, ?_, ?_⟩
  · intro w_net q_in h
    simp only [cycleEfficiency, if_neg (not_lt.mpr h)]
  · intro w_net q_in h
    simp only [cycleEfficiency, if_pos h]
  · intro inp s1 s2s s2 s3 s4s s4 d3
    rfl

/-- C5, witness: with heat input 0 and net work 5 the efficiency is
exactly 0 (no division); with heat input 100 and net work 50 it is
50/100 × 100; the all-`wetW` context reports the rounded value. -/
theorem C5_witness :
    cycleEfficiency 5 0 = 0 ∧
    cycleEfficiency 50 100 = 50 / 100 * 100 ∧
    rkCtxWet.efficiency =
      roundTo
        (cycleEfficiency ((wetW.h - wetW.h) - (wetW.h - wetW.h))
          (wetW.h - wetW.h)) 2 :=
  ⟨C5_efficiency_guard.1 5 0 le_rfl,
   C5_efficiency_guard.2.1 50 100 (by decide),
   C5_efficiency_guard.2.2 rkInpW wetW wetW wetW wetW wetW wetW
     (.num (1/2))⟩

/-- C6: past the preconditions, the handler issues exactly the six
queries in the strict order 1, 2s, 2, 3, 4s, 4: State 2s isentropic at
(boiler pressure, s1), State 2 resolved from (boiler pressure,
h1 + (h2s − h1)/pump_eff), State 4s isentropic at (condenser pressure,
s3), State 4 resolved from (condenser pressure,
h3 − (h3 − h4s)·turbine_eff), and succeeds with the context assembled
from the six resolved states. -/
theorem C6_state_resolution_order (engine : Engine) (inp : RankineInput)
    (s1 s2s s2 s3 s4s s4 : EngineState) (d3 : XDisplay)
    (hp : ¬ inp.p_cond ≥ inp.p_boiler)
    (he : ¬ (inp.pump_eff_pct / 100 ≤ 0 ∨ inp.turbine_eff_pct / 100 ≤ 0 ∨
             inp.pump_eff_pct / 100 > 1 ∨ inp.turbine_eff_pct / 100 > 1))
    (e1 : engine (.Px (inp.p_cond / 10) 0) = .ok s1)
    (e2 : engine (.Ps (inp.p_boiler / 10) s1.s) = .ok s2s)
    (e3 : engine (.Ph (inp.p_boiler / 10)
            (s1.h + (s2s.h - s1.h) / (inp.pump_eff_pct / 100))) = .ok s2)
    (e4 : engine (.PT (inp.p_boiler / 10) (inp.t_boiler + 273.15)) = .ok s3)
    (e5 : engine (.Ps (inp.p_cond / 10) s3.s) = .ok s4s)
    (e6 : engine (.Ph (inp.p_cond / 10)
            (s3.h - (s3.h - s4s.h) * (inp.turbine_eff_pct / 100))) = .ok s4)
    (hx : xDisp3 s3 = some d3) :
    handle_rankine_cycle engine inp =
      (.success (mkRankineCtx inp s1 s2s s2 s3 s4s s4 d3),
       [.Px (inp.p_cond / 10) 0,
        .Ps (inp.p_boiler / 10) s1.s,
        .Ph (inp.p_boiler / 10)
          (s1.h + (s2s.h - s1.h) / (inp.pump_eff_pct / 100)),
        .PT (inp.p_boiler / 10) (inp.t_boiler + 273.15),
        .Ps (inp.p_cond / 10) s3.s,
        .Ph (inp.p_cond / 10)
          (s3.h - (s3.h - s4s.h) * (inp.turbine_eff_pct / 100))]) :=
  rankine_success_eq engine inp s1 s2s s2 s3 s4s s4 d3 hp he e1 e2 e3 e4 e5
    e6 hx

/-- C6, witness: the concrete all-`wetW` run issues exactly the six
queries in order and succeeds. -/
theorem C6_witness :
    handle_rankine_cycle engWet rkInpW =
      (.success (mkRankineCtx rkInpW wetW wetW wetW wetW wetW wetW
          (.num (roundTo (1/2) 4))),
       [.Px (rkInpW.p_cond / 10) 0,
        .Ps (rkInpW.p_boiler / 10) wetW.s,
        .Ph (rkInpW.p_boiler / 10)
          (wetW.h + (wetW.h - wetW.h) / (rkInpW.pump_eff_pct / 100)),
        .PT (rkInpW.p_boiler / 10) (rkInpW.t_boiler + 273.15),
        .Ps (rkInpW.p_cond / 10) wetW.s,
        .Ph (rkInpW.p_cond / 10)
          (wetW.h - (wetW.h - wetW.h) * (rkInpW.turbine_eff_pct / 100))]) :=
  C6_state_resolution_order engWet rkInpW wetW wetW wetW wetW wetW wetW
    (.num (roundTo (1/2) 4)) (by decide) (by decide) rfl rfl rfl rfl rfl rfl
    (by decide)

/-- C7: for a successful single state-point lookup, phase Liquid is
labelled "Compressed Liquid" with quality '0'; phase Gas is labelled
"Superheated Steam" with quality '1'; the two-phase phase is labelled
"Wet Steam" with the engine-reported quality (rounded), and four
intermediate states at qualities 0.2, 0.4, 0.6, 0.8 are sampled at the
same pressure. -/
theorem C7_state_point_classification (engine : Engine) (inp : SPInput)
    (p_mpa : ℚ) (steam : EngineState)
    (hc : convPressure inp.p_unit inp.pressure = some p_mpa)
    (he : engine (.PT p_mpa (convTemp inp.t_unit inp.temperature)) =
      .ok steam) :
    (steam.phase = "Liquid" →
      handle_state_point engine inp =
        (.success { spBase inp (convTemp inp.t_unit inp.temperature) steam
            with state := some "Compressed Liquid", x := some .strZero },
         [.PT p_mpa (convTemp inp.t_unit inp.temperature)])) ∧
    (steam.phase = "Gas" →
      handle_state_point engine inp =
        (.success { spBase inp (convTemp inp.t_unit inp.temperature) steam
            with state := some "Superheated Steam", x := some .strOne },
         [.PT p_mpa (convTemp inp.t_unit inp.temperature)])) ∧
    (steam.phase = "Two-phase" → ∀ xv, steam.x = some xv →
      ∀ i1 i2 i3 i4 : EngineState,
      engine (.Px p_mpa 0.2) = .ok i1 → engine (.Px p_mpa 0.4) = .ok i2 →
      engine (.Px p_mpa 0.6) = .ok i3 → engine (.Px p_mpa 0.8) = .ok i4 →
      handle_state_point engine inp =
        (.success { spBase inp (convTemp inp.t_unit inp.temperature) steam
            with state := some "Wet Steam",
                 x := some (.num (roundTo xv 4)),
                 intermediate_data := some
                   [mkIntermediate 0.2 i1, mkIntermediate 0.4 i2,
                    mkIntermediate 0.6 i3, mkIntermediate 0.8 i4] },
         [.PT p_mpa (convTemp inp.t_unit inp.temperature),
          .Px p_mpa 0.2, .Px p_mpa 0.4, .Px p_mpa 0.6, .Px p_mpa 0.8])) := by
  refine ⟨?_, ?_, ?_⟩
  · intro hph
    simp only [handle_state_point, hc, he, hph, if_true]
  · intro hph
    simp only [handle_state_point, hc, he, hph]
    simp
  · intro hph xv hxv i1 i2 i3 i4 h1 h2 h3 h4
    simp only [handle_state_point, hc, he, hph, hxv, sampleIntermediates,
      h1, h2, h3, h4]
    simp

/-- C7, witness: the three classifications at concrete engines (constant
liquid, gas and two-phase states) with pressure 1 bar and temperature
100 °C. -/
theorem C7_witness :
    handle_state_point engLiquid ⟨1, 100, "bar", "c"⟩ =
      (.success { spBase ⟨1, 100, "bar", "c"⟩ (convTemp "c" 100) liquidW
          with state := some "Compressed Liquid", x := some .strZero },
       [.PT (1/10) (convTemp "c" 100)]) ∧
    handle_state_point engGas ⟨1, 100, "bar", "c"⟩ =
      (.success { spBase ⟨1, 100, "bar", "c"⟩ (convTemp "c" 100) gasW
          with state := some "Superheated Steam", x := some .strOne },
       [.PT (1/10) (convTemp "c" 100)]) ∧
    handle_state_point engWet ⟨1, 100, "bar", "c"⟩ =
      (.success { spBase ⟨1, 100, "bar", "c"⟩ (convTemp "c" 100) wetW
          with state := some "Wet Steam",
               x := some (.num (roundTo (1/2) 4)),
               intermediate_data := some
                 [mkIntermediate 0.2 wetW, mkIntermediate 0.4 wetW,
                  mkIntermediate 0.6 wetW, mkIntermediate 0.8 wetW] },
       [.PT (1/10) (convTemp "c" 100),
        .Px (1/10) 0.2, .Px (1/10) 0.4, .Px (1/10) 0.6, .Px (1/10) 0.8]) :=
  ⟨(C7_state_point_classification engLiquid ⟨1, 100, "bar", "c"⟩ (1/10)
      liquidW (by decide) rfl).1 rfl,
   (C7_state_point_classification engGas ⟨1, 100, "bar", "c"⟩ (1/10)
      gasW (by decide) rfl).2.1 rfl,
   (C7_state_point_classification engWet ⟨1, 100, "bar", "c"⟩ (1/10)
      wetW (by decide) rfl).2.2 rfl (1/2) rfl wetW wetW wetW wetW rfl rfl
      rfl rfl⟩

/-- Both branch extractions of a paired optional-sample map have the
same length. -/
theorem filterMap_pair_length (g : ℚ → Option (Pt × Pt)) (l : List ℚ) :
    (l.filterMap fun t => (g t).map Prod.fst).length =
      (l.filterMap fun t => (g t).map Prod.snd).length := by
  induction l with
  | nil => rfl
  | cons t ts ih => cases h : g t <;> simp [h, ih]

/-- An engine failing every query. -/
def engFail : Engine := fun _ => .error .outOfBound

/-- An engine failing exactly the quality-1 (vapor-branch) queries. -/
def engVaporFail : Engine := fun q =>
  match q with
  | .Tx _ x => if x = 1 then .error .notImpl else .ok wetW
  | _ => .ok wetW

/-- C8: the saturation-dome sampler sweeps 0 °C to 370 °C in steps of
10 °C (all below the critical 373.946 °C), collects — in sweep order —
one liquid-branch point (engine at quality 0) and one vapor-branch point
(engine at quality 1) per temperature at which both engine calls
succeed, silently dropping failed samples, and terminates both sequences
with the fixed critical point (entropy 4.406, temperature 373.946 °C). -/
theorem C8_dome_sweep :
    sweepTemps =
      [0, 10, 20, 30, 40, 50, 60, 70, 80, 90, 100, 110, 120, 130, 140,
       150, 160, 170, 180, 190, 200, 210, 220, 230, 240, 250, 260, 270,
       280, 290, 300, 310, 320, 330, 340, 350, 360, 370] ∧
    (∀ t ∈ sweepTemps, t < 373.946) ∧
    (∀ engine : Engine,
      generate_saturation_dome engine =
        (sweepTemps.filterMap (fun tC => (domePoint engine tC).map Prod.fst)
           ++ [criticalPoint],
         sweepTemps.filterMap (fun tC => (domePoint engine tC).map Prod.snd)
           ++ [criticalPoint])) ∧
    (∀ (engine : Engine) (tC : ℚ) (sl sv : EngineState),
      engine (.Tx (tC + 273.15) 0) = .ok sl →
      engine (.Tx (tC + 273.15) 1) = .ok sv →
      domePoint engine tC = some (⟨sl.s, tC⟩, ⟨sv.s, tC⟩)) ∧
    (∀ engine : Engine,
      (generate_saturation_dome engine).1.getLast? = some criticalPoint ∧
      (generate_saturation_dome engine).2.getLast? = some criticalPoint) ∧
    criticalPoint = ⟨4.406, 373.946⟩ := by
  refine ⟨by decide, by decide, dome_eq, ?_, ?_, rfl⟩
  · intro engine tC sl sv h0 h1
    simp only [domePoint, h0, h1]
  · intro engine
    rw [dome_eq]
    exact ⟨List.getLast?_concat _, List.getLast?_concat _⟩

/-- C8, witness: 0 °C is in the sweep and below the critical
temperature; the all-`wetW` engine contributes the concrete sample at
0 °C; its dome terminates in the critical point. -/
theorem C8_witness :
    (0 : ℚ) < 373.946 ∧
    domePoint engWet 0 = some (⟨wetW.s, 0⟩, ⟨wetW.s, 0⟩) ∧
    (generate_saturation_dome engWet).1.getLast? = some criticalPoint :=
  ⟨C8_dome_sweep.2.1 0 (by decide),
   C8_dome_sweep.2.2.2.1 engWet 0 wetW wetW rfl rfl,
   (C8_dome_sweep.2.2.2.2.1 engWet).1⟩

/-- C9: for every engine behavior the two dome branches have exactly
equal length: a sweep step whose liquid-branch or vapor-branch call
fails contributes to neither branch, and a step where both succeed
contributes one point to each. -/
theorem C9_dome_equal_length (engine : Engine) :
    (generate_saturation_dome engine).1.length =
      (generate_saturation_dome engine).2.length ∧
    (∀ (tC : ℚ) (e : EngineExc),
      engine (.Tx (tC + 273.15) 0) = .error e →
      domePoint engine tC = none) ∧
    (∀ (tC : ℚ) (sl : EngineState) (e : EngineExc),
      engine (.Tx (tC + 273.15) 0) = .ok sl →
      engine (.Tx (tC + 273.15) 1) = .error e →
      domePoint engine tC = none) ∧
    (∀ (tC : ℚ) (sl sv : EngineState),
      engine (.Tx (tC + 273.15) 0) = .ok sl →
      engine (.Tx (tC + 273.15) 1) = .ok sv →
      domePoint engine tC = some (⟨sl.s, tC⟩, ⟨sv.s, tC⟩)) := by
  refine ⟨?_, ?_, ?_, ?_⟩
  · rw [dome_eq]
    simp only [List.length_append]
    rw [filterMap_pair_length]
  · intro tC e h0
    simp only [domePoint, h0]
  · intro tC sl e h0 h1
    simp only [domePoint, h0, h1]
  · intro tC sl sv h0 h1
    simp only [domePoint, h0, h1]

/-- C9, witness: equal branch lengths for the all-`wetW` engine; a
liquid-branch failure drops the step, a vapor-branch failure drops the
step, and a doubly-successful step contributes the paired sample. -/
theorem C9_witness :
    (generate_saturation_dome engWet).1.length =
      (generate_saturation_dome engWet).2.length ∧
    domePoint engFail 0 = none ∧
    domePoint engVaporFail 0 = none ∧
    domePoint engWet 0 = some (⟨wetW.s, 0⟩, ⟨wetW.s, 0⟩) :=
  ⟨(C9_dome_equal_length engWet).1,
   (C9_dome_equal_length engFail).2.1 0 .outOfBound rfl,
   (C9_dome_equal_length engVaporFail).2.2.1 0 wetW .notImpl
     (by simp [engVaporFail]) (by simp [engVaporFail]),
   (C9_dome_equal_length engWet).2.2.2 0 wetW wetW rfl rfl⟩

/-- C10: every successful Rankine result labels State 3 with the fixed
string "Superheated Steam" regardless of its resolved phase, and when
the resolved State 3 is two-phase its quality is still reported as the
rounded numeric engine value. -/
theorem C10_state3_label (engine : Engine) (inp : RankineInput)
    (ctx : RankineCtx) (tr : List Query)
    (h : handle_rankine_cycle engine inp = (.success ctx, tr)) :
    ctx.state3.phase = "Superheated Steam" ∧
    (∀ (s3 : EngineState) (v : ℚ),
      engine (.PT (inp.p_boiler / 10) (inp.t_boiler + 273.15)) = .ok s3 →
      s3.phase = "Two-phase" → s3.x = some v →
      ctx.state3.x = .num (roundTo v 4)) := by
  obtain ⟨s1, s2s, s2, s3', s4s, s4, d3, he3, hx3, hctx⟩ :=
    rankine_success_inv engine inp ctx tr h
  constructor
  · rw [hctx]
    rfl
  · intro s3 v he hph hxv
    have hs : Except.ok (ε := EngineExc) s3' = Except.ok s3 :=
      he3.symm.trans he
    injection hs with hs
    subst hs
    simp only [xDisp3, hph, hxv] at hx3
    simp only [Option.map_some'] at hx3
    rw [if_neg (by decide)] at hx3
    injection hx3 with hx3
    rw [hctx]
    simp only [mkRankineCtx, mkStateCtx]
    exact hx3.symm

/-- C10, witness: in the concrete successful all-`wetW` run — whose
State 3 resolves to the two-phase state — the reported State-3 phase
label is "Superheated Steam" while its quality is the numeric 0.5. -/
theorem C10_witness :
    rkCtxWet.state3.phase = "Superheated Steam" ∧
    rkCtxWet.state3.x = .num (roundTo (1/2) 4) :=
  ⟨(C10_state3_label engWet rkInpW rkCtxWet rkTrWet (by decide)).1,
   (C10_state3_label engWet rkInpW rkCtxWet rkTrWet (by decide)).2 wetW
     (1/2) rfl rfl rfl⟩
